import Mathlib

set_option autoImplicit false

/-!
Shallow embedding of the TransactionServer ledger engine.

The embedding mirrors, definition by definition, the TypeScript sources:
- `src/src/services/accountService.ts` (account rows, version-checked update),
- `src/src/services/transactionService.ts` (recordTransaction, transfer,
  getTransactionHistory),
- `src/src/utils/idempotency.ts` (idempotency-key records),
- `src/src/config/database.ts` (the BEGIN/COMMIT/ROLLBACK unit-of-work wrapper),
- the transactions router (history endpoint pagination guard).

The PostgreSQL database is modelled as explicit lists of rows; SQL
statements become list operations; a unit of work becomes an
`Except`-valued function whose error result discards every intermediate
write (that is the ROLLBACK of `database.ts`); `uuidv4()` identifiers and
`CURRENT_TIMESTAMP` values are passed in as parameters. `DECIMAL(20,2)`
balances and amounts are modelled as exact integers (fixed-point minor
units); timestamps as naturals.
-/

/-- Currency, `src/src/types/index.ts`: `'USD' | 'INR'`. -/
inductive Currency
  | USD
  | INR
deriving DecidableEq, Repr

/-- TransactionType, `src/src/types/index.ts`. -/
inductive TransactionType
  | DEPOSIT
  | WITHDRAWAL
  | TRANSFER_DEBIT
  | TRANSFER_CREDIT
deriving DecidableEq, Repr

/-- The `type` field of `RecordTransactionRequest`: only `'DEPOSIT' | 'WITHDRAWAL'`. -/
inductive SimpleTxnType
  | DEPOSIT
  | WITHDRAWAL
deriving DecidableEq, Repr

/-- Embed a simple request type into the stored transaction type. -/
def SimpleTxnType.toTransactionType : SimpleTxnType → TransactionType
  | .DEPOSIT => .DEPOSIT
  | .WITHDRAWAL => .WITHDRAWAL

/-- An `accounts` row (`init.sql`): id, user_id, currency, balance, version.
`created_at`/`updated_at` are maintained by a database trigger and never read
by the ledger logic, so they are omitted from the row model. -/
structure Account where
  id : String
  user_id : String
  currency : Currency
  balance : Int
  version : Nat
deriving DecidableEq, Repr

/-- A `transactions` row (`init.sql`). `created_at` is a natural timestamp. -/
structure Txn where
  id : String
  account_id : String
  type : TransactionType
  amount : Int
  balance_after : Int
  related_transaction_id : Option String
  description : Option String
  created_at : Nat
deriving DecidableEq, Repr

/-- An `idempotency_keys` row (`init.sql`). The JSONB body is kept opaque
as a string. -/
structure IdempotencyKeyRecord where
  key_hash : String
  request_method : String
  request_path : String
  response_status : Int
  response_body : String
  created_at : Nat
  expires_at : Nat
deriving DecidableEq, Repr

/-- The database state: the three tables, each as a list of rows in
insertion order. -/
structure DB where
  accounts : List Account
  transactions : List Txn
  idempotency_keys : List IdempotencyKeyRecord
deriving DecidableEq, Repr

/-- The error kinds thrown by the services (`throw new Error('...')`),
named after the spec taxonomy. `internalFailure` stands for an unexpected
storage-layer fault (for example PostgreSQL rejecting a negative
LIMIT/OFFSET). -/
inductive LedgerError
  | accountNotFound
  | fromAccountNotFound
  | toAccountNotFound
  | sameAccount
  | currencyMismatch
  | insufficientFunds
  | versionConflict
  | internalFailure
deriving DecidableEq, Repr

/-- `SELECT ... FROM accounts WHERE id = $1` (first matching row;
the id column is the primary key). Also the read performed by
`getAccountWithLock` — the `FOR UPDATE` lock itself has no effect on the
sequential row contents. -/
def findAccount (db : DB) (accountId : String) : Option Account :=
  db.accounts.find? (fun a => a.id == accountId)

/-- The primary-key invariant of the `accounts` table: ids are unique. -/
def accountIdsNodup (db : DB) : Prop :=
  (db.accounts.map (fun a => a.id)).Nodup

/-- The row effect of the SQL `UPDATE accounts SET balance = $1,
version = version + 1 WHERE id = $2 AND version = $3` on one row. -/
def applyVersionedUpdate (accountId : String) (newBalance : Int)
    (version : Nat) (a : Account) : Account :=
  if a.id == accountId && a.version == version then
    { a with balance := newBalance, version := a.version + 1 }
  else a

/-- `AccountService.updateAccountBalance` (`accountService.ts` lines 73-90):
`UPDATE accounts SET balance = $1, version = version + 1
 WHERE id = $2 AND version = $3 RETURNING id`;
zero updated rows throws `'Concurrent modification detected. Please retry.'`. -/
def updateAccountBalance (db : DB) (accountId : String) (newBalance : Int)
    (version : Nat) : Except LedgerError DB :=
  if db.accounts.any (fun a => a.id == accountId && a.version == version) then
    .ok { db with accounts :=
      db.accounts.map (applyVersionedUpdate accountId newBalance version) }
  else
    .error .versionConflict

/-- `RecordTransactionRequest` (`src/src/types/index.ts`). -/
structure RecordTransactionRequest where
  account_id : String
  type : SimpleTxnType
  amount : Int
  description : Option String
deriving DecidableEq, Repr

/-- `TransferRequest` (`src/src/types/index.ts`). -/
structure TransferRequest where
  from_account_id : String
  to_account_id : String
  amount : Int
  description : Option String
deriving DecidableEq, Repr

/-- JavaScript `x || fallback` on an optional string: `undefined` and the
empty string are falsy. -/
def jsStrOr (x : Option String) (fallback : String) : String :=
  match x with
  | none => fallback
  | some s => if s == "" then fallback else s

/-- `TransactionService.recordTransaction` (`transactionService.ts` lines
21-73), run inside the `transaction` unit of work: lock and read the
account, compute the new balance (deposit adds, withdrawal subtracts and
must not go negative), persist it version-checked, then insert one
transaction row. The generated `uuidv4()` id and the insertion timestamp
are the parameters `txId` and `now`. -/
def recordTransaction (db : DB) (req : RecordTransactionRequest)
    (txId : String) (now : Nat) : Except LedgerError (DB × Txn) :=
  match findAccount db req.account_id with
  | none => .error .accountNotFound
  | some account =>
    let newBalance : Int :=
      match req.type with
      | .DEPOSIT => account.balance + req.amount
      | .WITHDRAWAL => account.balance - req.amount
    if req.type = .WITHDRAWAL ∧ newBalance < 0 then
      .error .insufficientFunds
    else
      match updateAccountBalance db account.id newBalance account.version with
      | .error e => .error e
      | .ok db1 =>
        let tx : Txn :=
          { id := txId
            account_id := account.id
            type := req.type.toTransactionType
            amount := req.amount
            balance_after := newBalance
            related_transaction_id := none
            description := req.description
            created_at := now }
        .ok ({ db1 with transactions := db1.transactions ++ [tx] }, tx)

/-- Lexicographic comparison of char lists, the order JavaScript's default
`Array.prototype.sort` uses on strings (code-unit order; identical to
codepoint order on the ASCII identifiers used here). -/
def charListLt : List Char → List Char → Bool
  | [], [] => false
  | [], _ :: _ => true
  | _ :: _, [] => false
  | a :: as, b :: bs =>
    if a < b then true
    else if b < a then false
    else charListLt as bs

/-- JavaScript string `<` comparison. -/
def jsStrLt (a b : String) : Bool :=
  charListLt a.data b.data

/-- `[x, y].sort()` in JavaScript: the two elements in ascending string
order. -/
def jsSortPair (x y : String) : List String :=
  if jsStrLt y x then [y, x] else [x, y]

/-- `transactionService.ts` line 85: the `accountIds` array computed at the
top of `transfer` — the two account ids in ascending (canonical) order.
The source computes this value but never uses it. -/
def transferSortedIds (req : TransferRequest) : List String :=
  jsSortPair req.from_account_id req.to_account_id

/-- The order in which `transfer` actually issues its two
`SELECT ... FOR UPDATE` statements (`transactionService.ts` lines 87-101):
always the source account first, then the destination account. -/
def transferLockOrder (req : TransferRequest) : List String :=
  [req.from_account_id, req.to_account_id]

/-- `TransactionService.transfer` (`transactionService.ts` lines 75-196),
run inside the `transaction` unit of work: reject same-account transfers,
lock and read both accounts (source first — see `transferLockOrder`),
require both to exist, currencies to match and the source balance to stay
non-negative, then debit the source and credit the destination (each
version-checked) and insert the mutually linked TRANSFER_DEBIT /
TRANSFER_CREDIT rows. The generated ids and the timestamp are parameters. -/
def transfer (db : DB) (req : TransferRequest) (debitId creditId : String)
    (now : Nat) : Except LedgerError (DB × Txn × Txn) :=
  if req.from_account_id == req.to_account_id then
    .error .sameAccount
  else
    match findAccount db req.from_account_id with
    | none => .error .fromAccountNotFound
    | some fromA =>
      match findAccount db req.to_account_id with
      | none => .error .toAccountNotFound
      | some toA =>
        if fromA.currency ≠ toA.currency then
          .error .currencyMismatch
        else
          let newFromBalance := fromA.balance - req.amount
          if newFromBalance < 0 then
            .error .insufficientFunds
          else
            let newToBalance := toA.balance + req.amount
            match updateAccountBalance db fromA.id newFromBalance fromA.version with
            | .error e => .error e
            | .ok db1 =>
              match updateAccountBalance db1 toA.id newToBalance toA.version with
              | .error e => .error e
              | .ok db2 =>
                let debitTx : Txn :=
                  { id := debitId
                    account_id := fromA.id
                    type := .TRANSFER_DEBIT
                    amount := req.amount
                    balance_after := newFromBalance
                    related_transaction_id := some creditId
                    description := some (jsStrOr req.description ("Transfer to " ++ toA.user_id))
                    created_at := now }
                let creditTx : Txn :=
                  { id := creditId
                    account_id := toA.id
                    type := .TRANSFER_CREDIT
                    amount := req.amount
                    balance_after := newToBalance
                    related_transaction_id := some debitId
                    description := some (jsStrOr req.description ("Transfer from " ++ fromA.user_id))
                    created_at := now }
                .ok ({ db2 with
                        transactions := db2.transactions ++ [debitTx, creditTx] },
                     debitTx, creditTx)

/-- The `transaction` wrapper of `database.ts` (lines 30-45) as seen by the
caller: COMMIT keeps the callback's writes, ROLLBACK on any error restores
the pre-call state. -/
def applyRecordTransaction (db : DB) (req : RecordTransactionRequest)
    (txId : String) (now : Nat) : DB × Bool :=
  match recordTransaction db req txId now with
  | .ok (db', _) => (db', true)
  | .error _ => (db, false)

/-- The `transaction` wrapper of `database.ts` applied to `transfer`:
the caller's visible state after the unit of work commits or rolls back. -/
def applyTransfer (db : DB) (req : TransferRequest) (debitId creditId : String)
    (now : Nat) : DB :=
  match transfer db req debitId creditId now with
  | .ok (db', _, _) => db'
  | .error _ => db

/-- `TransactionHistoryQuery` (`src/src/types/index.ts`): optional page and
limit. -/
structure TransactionHistoryQuery where
  account_id : String
  page : Option Int
  limit : Option Int
deriving DecidableEq, Repr

/-- `PaginatedResponse` (`src/src/types/index.ts`). -/
structure PaginatedResponse (α : Type) where
  data : List α
  page : Int
  limit : Int
  total : Nat
  total_pages : Nat
deriving DecidableEq, Repr

/-- JavaScript `x || fallback` on an optional number: `undefined` and `0`
are falsy. -/
def jsNumOr (x : Option Int) (fallback : Int) : Int :=
  match x with
  | none => fallback
  | some v => if v == 0 then fallback else v

/-- `Math.ceil(total / limit)` on a natural total and positive limit. -/
def jsMathCeilDiv (total limit : Nat) : Nat :=
  (total + limit - 1) / limit

/-- Descending creation-time comparison, the `ORDER BY created_at DESC` of
the history query. -/
def createdAtDescLe (a b : Txn) : Bool :=
  b.created_at ≤ a.created_at

/-- `TransactionService.getTransactionHistory` (`transactionService.ts`
lines 206-240): defaults page to 1 and limit to 20, clamps limit to at most
100, counts the account's transaction rows, and returns one page of them
ordered by creation time descending with `LIMIT limit OFFSET (page-1)*limit`.
PostgreSQL rejects a negative LIMIT or OFFSET, modelled as
`internalFailure`. -/
def getTransactionHistory (db : DB) (q : TransactionHistoryQuery) :
    Except LedgerError (PaginatedResponse Txn) :=
  let page := jsNumOr q.page 1
  let limit := min (jsNumOr q.limit 20) 100
  let offset := (page - 1) * limit
  if limit < 0 ∨ offset < 0 then
    .error .internalFailure
  else
    let rows := db.transactions.filter (fun t => t.account_id == q.account_id)
    let total := rows.length
    let ordered := rows.mergeSort createdAtDescLe
    .ok { data := ((ordered.drop offset.toNat).take limit.toNat)
          page := page
          limit := limit
          total := total
          total_pages := jsMathCeilDiv total limit.toNat }

/-- The HTTP-layer rejection of the history route: `AppError(400, 'Page and
limit must be positive integers')`. -/
inductive RouteError
  | badRequest
deriving DecidableEq, Repr

/-- The `GET /:accountId/history` route handler (transactions router):
defaults a missing page to 1 and a missing limit to 20, rejects
`page < 1 || limit < 1` with a 400 error, and otherwise delegates to
`getTransactionHistory`. -/
def historyEndpoint (db : DB) (accountId : String)
    (pageParam limitParam : Option Int) :
    Except (RouteError ⊕ LedgerError) (PaginatedResponse Txn) :=
  let page := pageParam.getD 1
  let limit := limitParam.getD 20
  if page < 1 ∨ limit < 1 then
    .error (.inl .badRequest)
  else
    match getTransactionHistory db
        { account_id := accountId, page := some page, limit := some limit } with
    | .ok r => .ok r
    | .error e => .error (.inr e)

/-- `getIdempotencyRecord` (`idempotency.ts` lines 19-34):
`SELECT response_status, response_body FROM idempotency_keys
 WHERE key_hash = $1 AND expires_at > CURRENT_TIMESTAMP`. -/
def getIdempotencyRecord (db : DB) (keyHash : String) (now : Nat) :
    Option (Int × String) :=
  match db.idempotency_keys.find?
      (fun r => r.key_hash == keyHash && now < r.expires_at) with
  | some r => some (r.response_status, r.response_body)
  | none => none

/-- The 24-hour expiry horizon of `storeIdempotencyRecord`, in the
timestamp unit of the model. -/
def idempotencyTtl : Nat := 24 * 60 * 60 * 1000

/-- `storeIdempotencyRecord` (`idempotency.ts` lines 36-58):
`INSERT INTO idempotency_keys ... ON CONFLICT (key_hash) DO NOTHING` with
`expires_at` 24 hours from now — the insert is dropped when a row with the
same key hash already exists (the unique constraint on `key_hash`). -/
def storeIdempotencyRecord (db : DB) (keyHash method path : String)
    (status : Int) (body : String) (now : Nat) : DB :=
  if db.idempotency_keys.any (fun r => r.key_hash == keyHash) then
    db
  else
    { db with idempotency_keys := db.idempotency_keys ++
        [{ key_hash := keyHash
           request_method := method
           request_path := path
           response_status := status
           response_body := body
           created_at := now
           expires_at := now + idempotencyTtl }] }

/-- `generateIdempotencyKeyHash` (`idempotency.ts` lines 5-12): the SHA-256
hex digest of `method:path:key`. The digest itself is Node's `crypto`
primitive, not code of this repository; it is abstracted as an arbitrary
function `digest` of the combined string, which is all the determinism
property needs. -/
def generateIdempotencyKeyHash (digest : String → String)
    (method path key : String) : String :=
  digest (method ++ ":" ++ path ++ ":" ++ key)

/-- A withdrawal request for `recordTransaction`. -/
def withdrawalRequest (accountId : String) (amount : Int) :
    RecordTransactionRequest :=
  { account_id := accountId, type := .WITHDRAWAL, amount := amount,
    description := none }

/-- `n` withdrawals of the same amount from one account, run back to back —
the serialization that the row lock (`FOR UPDATE` inside one unit of work)
imposes on concurrent withdrawals against a single account. Returns the
final state and the number of withdrawals that succeeded. -/
def withdrawN (db : DB) (accountId : String) (amount : Int) :
    Nat → DB × Nat
  | 0 => (db, 0)
  | n + 1 =>
    let step := applyRecordTransaction db (withdrawalRequest accountId amount)
      (toString n) n
    let rest := withdrawN step.1 accountId amount n
    (rest.1, rest.2 + (if step.2 then 1 else 0))

/-! ### Concrete sample data used to evaluate the theorems -/

/-- A sample USD account. -/
def sampleAccountA : Account :=
  { id := "a", user_id := "u1", currency := .USD, balance := 10, version := 0 }

/-- A second sample USD account. -/
def sampleAccountB : Account :=
  { id := "b", user_id := "u2", currency := .USD, balance := 5, version := 0 }

/-- A sample INR account, for the currency-mismatch scenario. -/
def sampleAccountC : Account :=
  { id := "c", user_id := "u3", currency := .INR, balance := 5, version := 0 }

/-- A sample database with two USD accounts and empty logs. -/
def sampleDB : DB :=
  { accounts := [sampleAccountA, sampleAccountB],
    transactions := [], idempotency_keys := [] }

/-- A sample database pairing a USD account with an INR account. -/
def sampleMismatchDB : DB :=
  { accounts := [sampleAccountA, sampleAccountC],
    transactions := [], idempotency_keys := [] }

/-- A transfer request whose source id sorts after its destination id. -/
def descOrderReq : TransferRequest :=
  { from_account_id := "b", to_account_id := "a", amount := 1,
    description := none }

/-- The same pair of accounts transferred in the opposite direction. -/
def ascOrderReq : TransferRequest :=
  { from_account_id := "a", to_account_id := "b", amount := 1,
    description := none }

/-- A sample transfer request between the two USD accounts. -/
def sampleTransferReq : TransferRequest :=
  { from_account_id := "a", to_account_id := "b", amount := 4,
    description := some "pay" }

/-- A sample deposit request for the first USD account. -/
def sampleDepositReq : RecordTransactionRequest :=
  { account_id := "a", type := .DEPOSIT, amount := 7, description := none }

/-- A sample transfer request from the USD account to the INR account. -/
def sampleMismatchReq : TransferRequest :=
  { from_account_id := "a", to_account_id := "c", amount := 4,
    description := none }

/-- The debit row produced by the sample transfer. -/
def sampleDebitTx : Txn :=
  { id := "d1", account_id := "a", type := .TRANSFER_DEBIT, amount := 4,
    balance_after := 6, related_transaction_id := some "c1",
    description := some "pay", created_at := 7 }

/-- The credit row produced by the sample transfer. -/
def sampleCreditTx : Txn :=
  { id := "c1", account_id := "b", type := .TRANSFER_CREDIT, amount := 4,
    balance_after := 9, related_transaction_id := some "d1",
    description := some "pay", created_at := 7 }

/-- The database state after the sample transfer. -/
def sampleTransferDB : DB :=
  { accounts := [{ id := "a", user_id := "u1", currency := .USD,
                   balance := 6, version := 1 },
                 { id := "b", user_id := "u2", currency := .USD,
                   balance := 9, version := 1 }],
    transactions := [sampleDebitTx, sampleCreditTx],
    idempotency_keys := [] }

/-! ### Helper lemmas about the versioned balance update -/

/-- The versioned row update never changes the id column. -/
theorem applyVersionedUpdate_id (i : String) (nb : Int) (v : Nat)
    (a : Account) : (applyVersionedUpdate i nb v a).id = a.id := by
  unfold applyVersionedUpdate
  split <;> rfl

/-- A row with a different id is untouched by the versioned update. -/
theorem applyVersionedUpdate_other (i : String) (nb : Int) (v : Nat)
    (a : Account) (h : a.id ≠ i) : applyVersionedUpdate i nb v a = a := by
  unfold applyVersionedUpdate
  rw [if_neg]
  simp [h]

/-- The matching row is rewritten by the versioned update. -/
theorem applyVersionedUpdate_self (i : String) (nb : Int) (v : Nat)
    (a : Account) (hid : a.id = i) (hv : a.version = v) :
    applyVersionedUpdate i nb v a =
      { a with balance := nb, version := a.version + 1 } := by
  unfold applyVersionedUpdate
  rw [if_pos]
  simp [hid, hv]

/-- `find?` by id commutes with mapping an id-preserving row function. -/
theorem find?_map_id_preserving (l : List Account) (g : Account → Account)
    (hg : ∀ b, (g b).id = b.id) (i : String) :
    (l.map g).find? (fun b => b.id == i) =
      (l.find? (fun b => b.id == i)).map g := by
  rw [List.find?_map]
  have hp : ((fun b : Account => b.id == i) ∘ g) = fun b : Account => b.id == i := by
    funext b
    simp [Function.comp, hg b]
  rw [hp]

/-- Characterization of a successful version-checked update: when the stored
row is read back at its current version, the update succeeds, rewrites
exactly that row's balance and bumps its version by one, and leaves every
other account, the transaction log and the idempotency table unchanged. -/
theorem updateAccountBalance_found (db : DB) (i : String) (nb : Int)
    (a : Account) (ha : findAccount db i = some a) :
    ∃ db', updateAccountBalance db i nb a.version = .ok db' ∧
      findAccount db' i = some { a with balance := nb, version := a.version + 1 } ∧
      (∀ j, j ≠ i → findAccount db' j = findAccount db j) ∧
      db'.transactions = db.transactions ∧
      db'.idempotency_keys = db.idempotency_keys := by
  have ha' : List.find? (fun b : Account => b.id == i) db.accounts = some a := ha
  have hmem : a ∈ db.accounts := List.mem_of_find?_eq_some ha'
  have hpa : (a.id == i) = true := List.find?_some (p := fun b : Account => b.id == i) ha'
  have hid : a.id = i := by simpa using hpa
  have hany : db.accounts.any (fun b => b.id == i && b.version == a.version) = true := by
    refine List.any_eq_true.mpr ⟨a, hmem, ?_⟩
    simp [hid]
  refine ⟨{ db with accounts :=
      db.accounts.map (applyVersionedUpdate i nb a.version) }, ?_, ?_, ?_, rfl, rfl⟩
  · unfold updateAccountBalance
    rw [if_pos hany]
  · show (db.accounts.map (applyVersionedUpdate i nb a.version)).find?
      (fun b => b.id == i) = _
    rw [find?_map_id_preserving _ _ (fun b => applyVersionedUpdate_id i nb a.version b)]
    show ((findAccount db i).map _) = _
    rw [ha]
    simp [applyVersionedUpdate_self i nb a.version a hid rfl]
  · intro j hj
    show (db.accounts.map (applyVersionedUpdate i nb a.version)).find?
      (fun b => b.id == j) = findAccount db j
    rw [find?_map_id_preserving _ _ (fun b => applyVersionedUpdate_id i nb a.version b)]
    show ((findAccount db j).map _) = _
    cases hfj : findAccount db j with
    | none => simp
    | some b =>
      have hfj' : List.find? (fun c : Account => c.id == j) db.accounts = some b := hfj
      have hbid : b.id = j := by simpa using List.find?_some (p := fun c : Account => c.id == j) hfj'
      simp [applyVersionedUpdate_other i nb a.version b (by rw [hbid]; exact hj)]

/-- A version-checked update against a stale version fails with
`VersionConflict` (ids being unique, only the read row can match). -/
theorem updateAccountBalance_mismatch (db : DB) (i : String) (nb : Int)
    (v : Nat) (a : Account) (hn : accountIdsNodup db)
    (ha : findAccount db i = some a) (hv : a.version ≠ v) :
    updateAccountBalance db i nb v = .error .versionConflict := by
  have ha' : List.find? (fun b : Account => b.id == i) db.accounts = some a := ha
  have hmem : a ∈ db.accounts := List.mem_of_find?_eq_some ha'
  have hid : a.id = i := by simpa using List.find?_some (p := fun b : Account => b.id == i) ha'
  have hany : db.accounts.any (fun b => b.id == i && b.version == v) = false := by
    rw [List.any_eq_false]
    intro b hb
    simp only [Bool.and_eq_true, beq_iff_eq, not_and]
    intro hbid
    have hba : b = a := List.inj_on_of_nodup_map hn hb hmem (by rw [hbid, hid])
    rw [hba]
    exact hv
  unfold updateAccountBalance
  rw [if_neg]
  rw [hany]
  simp

/-! ### Helper lemmas about recordTransaction -/

/-- The id under which `findAccount` returned a row is that row's id. -/
theorem findAccount_id (db : DB) (i : String) (a : Account)
    (ha : findAccount db i = some a) : a.id = i := by
  have ha' : List.find? (fun b : Account => b.id == i) db.accounts = some a := ha
  simpa using List.find?_some (p := fun b : Account => b.id == i) ha'

/-- A deposit on an existing account always succeeds: the balance grows by
the amount, the version is bumped, and exactly one DEPOSIT row with
`balance_after` equal to the new balance is appended. -/
theorem recordTransaction_deposit (db : DB) (req : RecordTransactionRequest)
    (txId : String) (now : Nat) (a : Account)
    (ha : findAccount db req.account_id = some a) (ht : req.type = .DEPOSIT) :
    ∃ db' tx, recordTransaction db req txId now = .ok (db', tx) ∧
      tx = { id := txId, account_id := req.account_id, type := .DEPOSIT,
             amount := req.amount, balance_after := a.balance + req.amount,
             related_transaction_id := none, description := req.description,
             created_at := now } ∧
      findAccount db' req.account_id =
        some { a with balance := a.balance + req.amount, version := a.version + 1 } ∧
      (∀ j, j ≠ req.account_id → findAccount db' j = findAccount db j) ∧
      db'.transactions = db.transactions ++ [tx] ∧
      db'.idempotency_keys = db.idempotency_keys := by
  have hid : a.id = req.account_id := findAccount_id db req.account_id a ha
  obtain ⟨db1, hup, hfind, hother, htx, hidm⟩ :=
    updateAccountBalance_found db req.account_id (a.balance + req.amount) a ha
  have hmain : recordTransaction db req txId now =
      .ok ({ db1 with transactions := db1.transactions ++
              [{ id := txId, account_id := req.account_id, type := .DEPOSIT,
                 amount := req.amount, balance_after := a.balance + req.amount,
                 related_transaction_id := none, description := req.description,
                 created_at := now }] },
           { id := txId, account_id := req.account_id, type := .DEPOSIT,
             amount := req.amount, balance_after := a.balance + req.amount,
             related_transaction_id := none, description := req.description,
             created_at := now }) := by
    simp only [recordTransaction, ha, ht, SimpleTxnType.toTransactionType]
    rw [if_neg (by simp)]
    rw [hid, hup]
  exact ⟨_, _, hmain, rfl, hfind, hother, by simpa using htx, hidm⟩

/-- A withdrawal that would drive the balance negative fails with
`InsufficientFunds`; the enclosing unit of work rolls back, so the caller
observes the unchanged state. -/
theorem recordTransaction_withdraw_fail (db : DB)
    (req : RecordTransactionRequest) (txId : String) (now : Nat) (a : Account)
    (ha : findAccount db req.account_id = some a) (ht : req.type = .WITHDRAWAL)
    (hneg : a.balance - req.amount < 0) :
    recordTransaction db req txId now = .error .insufficientFunds ∧
    applyRecordTransaction db req txId now = (db, false) := by
  have h1 : recordTransaction db req txId now = .error .insufficientFunds := by
    simp [recordTransaction, ha, ht, hneg]
  refine ⟨h1, ?_⟩
  unfold applyRecordTransaction
  rw [h1]

/-- A withdrawal covered by the balance succeeds: the balance shrinks by the
amount, the version is bumped, and exactly one WITHDRAWAL row with
`balance_after` equal to the new balance is appended. -/
theorem recordTransaction_withdraw_ok (db : DB)
    (req : RecordTransactionRequest) (txId : String) (now : Nat) (a : Account)
    (ha : findAccount db req.account_id = some a) (ht : req.type = .WITHDRAWAL)
    (hpos : 0 ≤ a.balance - req.amount) :
    ∃ db' tx, recordTransaction db req txId now = .ok (db', tx) ∧
      tx = { id := txId, account_id := req.account_id, type := .WITHDRAWAL,
             amount := req.amount, balance_after := a.balance - req.amount,
             related_transaction_id := none, description := req.description,
             created_at := now } ∧
      findAccount db' req.account_id =
        some { a with balance := a.balance - req.amount, version := a.version + 1 } ∧
      (∀ j, j ≠ req.account_id → findAccount db' j = findAccount db j) ∧
      db'.transactions = db.transactions ++ [tx] ∧
      db'.idempotency_keys = db.idempotency_keys := by
  have hid : a.id = req.account_id := findAccount_id db req.account_id a ha
  obtain ⟨db1, hup, hfind, hother, htx, hidm⟩ :=
    updateAccountBalance_found db req.account_id (a.balance - req.amount) a ha
  have hmain : recordTransaction db req txId now =
      .ok ({ db1 with transactions := db1.transactions ++
              [{ id := txId, account_id := req.account_id, type := .WITHDRAWAL,
                 amount := req.amount, balance_after := a.balance - req.amount,
                 related_transaction_id := none, description := req.description,
                 created_at := now }] },
           { id := txId, account_id := req.account_id, type := .WITHDRAWAL,
             amount := req.amount, balance_after := a.balance - req.amount,
             related_transaction_id := none, description := req.description,
             created_at := now }) := by
    simp only [recordTransaction, ha, ht, SimpleTxnType.toTransactionType]
    rw [if_neg (by simp only [true_and]; omega)]
    rw [hid, hup]
  exact ⟨_, _, hmain, rfl, hfind, hother, by simpa using htx, hidm⟩

/-! ### Helper lemmas about transfer -/

/-- A transfer with both accounts present, matching currencies and
sufficient source funds succeeds, and its effect is: source debited,
destination credited (both version-checked), and the two mutually linked
TRANSFER_DEBIT / TRANSFER_CREDIT rows appended; everything else is
unchanged. -/
theorem transfer_ok_spec (db : DB) (req : TransferRequest)
    (dId cId : String) (now : Nat) (f t : Account)
    (hne : req.from_account_id ≠ req.to_account_id)
    (hf : findAccount db req.from_account_id = some f)
    (hta : findAccount db req.to_account_id = some t)
    (hcur : f.currency = t.currency)
    (hbal : 0 ≤ f.balance - req.amount) :
    ∃ db' dTx cTx, transfer db req dId cId now = .ok (db', dTx, cTx) ∧
      dTx = { id := dId, account_id := req.from_account_id,
              type := .TRANSFER_DEBIT, amount := req.amount,
              balance_after := f.balance - req.amount,
              related_transaction_id := some cId,
              description := some (jsStrOr req.description
                ("Transfer to " ++ t.user_id)),
              created_at := now } ∧
      cTx = { id := cId, account_id := req.to_account_id,
              type := .TRANSFER_CREDIT, amount := req.amount,
              balance_after := t.balance + req.amount,
              related_transaction_id := some dId,
              description := some (jsStrOr req.description
                ("Transfer from " ++ f.user_id)),
              created_at := now } ∧
      findAccount db' req.from_account_id =
        some { f with balance := f.balance - req.amount, version := f.version + 1 } ∧
      findAccount db' req.to_account_id =
        some { t with balance := t.balance + req.amount, version := t.version + 1 } ∧
      (∀ j, j ≠ req.from_account_id → j ≠ req.to_account_id →
        findAccount db' j = findAccount db j) ∧
      db'.transactions = db.transactions ++ [dTx, cTx] ∧
      db'.idempotency_keys = db.idempotency_keys := by
  have hfid : f.id = req.from_account_id := findAccount_id db _ f hf
  have htid : t.id = req.to_account_id := findAccount_id db _ t hta
  obtain ⟨db1, hup1, hfind1, hother1, htx1, hidm1⟩ :=
    updateAccountBalance_found db req.from_account_id (f.balance - req.amount) f hf
  have hta1 : findAccount db1 req.to_account_id = some t := by
    rw [hother1 req.to_account_id (Ne.symm hne)]
    exact hta
  obtain ⟨db2, hup2, hfind2, hother2, htx2, hidm2⟩ :=
    updateAccountBalance_found db1 req.to_account_id (t.balance + req.amount) t hta1
  have hmain : transfer db req dId cId now =
      .ok ({ db2 with transactions := db2.transactions ++
              [{ id := dId, account_id := req.from_account_id,
                 type := .TRANSFER_DEBIT, amount := req.amount,
                 balance_after := f.balance - req.amount,
                 related_transaction_id := some cId,
                 description := some (jsStrOr req.description
                   ("Transfer to " ++ t.user_id)),
                 created_at := now },
               { id := cId, account_id := req.to_account_id,
                 type := .TRANSFER_CREDIT, amount := req.amount,
                 balance_after := t.balance + req.amount,
                 related_transaction_id := some dId,
                 description := some (jsStrOr req.description
                   ("Transfer from " ++ f.user_id)),
                 created_at := now }] },
           { id := dId, account_id := req.from_account_id,
             type := .TRANSFER_DEBIT, amount := req.amount,
             balance_after := f.balance - req.amount,
             related_transaction_id := some cId,
             description := some (jsStrOr req.description
               ("Transfer to " ++ t.user_id)),
             created_at := now },
           { id := cId, account_id := req.to_account_id,
             type := .TRANSFER_CREDIT, amount := req.amount,
             balance_after := t.balance + req.amount,
             related_transaction_id := some dId,
             description := some (jsStrOr req.description
               ("Transfer from " ++ f.user_id)),
             created_at := now }) := by
    simp only [transfer, hf, hta]
    rw [if_neg (by simp [hne])]
    rw [if_neg (by simp [hcur])]
    rw [if_neg (by omega)]
    rw [hfid, htid]
    simp only [hup1, hup2]
  refine ⟨_, _, _, hmain, rfl, rfl, ?_, ?_, ?_, ?_, ?_⟩
  · show findAccount db2 req.from_account_id = _
    rw [hother2 req.from_account_id hne]
    exact hfind1
  · exact hfind2
  · intro j hj1 hj2
    show findAccount db2 j = _
    rw [hother2 j hj2, hother1 j hj1]
  · show db2.transactions ++ _ = db.transactions ++ _
    rw [htx2, htx1]
  · show db2.idempotency_keys = db.idempotency_keys
    rw [hidm2, hidm1]

/-- A transfer between accounts of different currencies fails with
`CurrencyMismatch` before any write is attempted. -/
theorem transfer_currency_mismatch (db : DB) (req : TransferRequest)
    (dId cId : String) (now : Nat) (f t : Account)
    (hne : req.from_account_id ≠ req.to_account_id)
    (hf : findAccount db req.from_account_id = some f)
    (hta : findAccount db req.to_account_id = some t)
    (hcur : f.currency ≠ t.currency) :
    transfer db req dId cId now = .error .currencyMismatch := by
  simp only [transfer, hf, hta]
  rw [if_neg (by simp [hne])]
  rw [if_pos hcur]

/-- On any error the `transaction` wrapper rolls back: the caller's state
is the pre-call state. -/
theorem applyTransfer_error (db : DB) (req : TransferRequest)
    (dId cId : String) (now : Nat) (e : LedgerError)
    (h : transfer db req dId cId now = .error e) :
    applyTransfer db req dId cId now = db := by
  unfold applyTransfer
  rw [h]

/-- On any error the `transaction` wrapper rolls back `recordTransaction`:
the caller's state is the pre-call state. -/
theorem applyRecordTransaction_error (db : DB)
    (req : RecordTransactionRequest) (txId : String) (now : Nat)
    (e : LedgerError) (h : recordTransaction db req txId now = .error e) :
    applyRecordTransaction db req txId now = (db, false) := by
  unfold applyRecordTransaction
  rw [h]

/-! ### Helper lemmas about repeated withdrawals -/

/-- A transfer whose source cannot cover the amount fails with
`InsufficientFunds`. -/
theorem transfer_insufficient (db : DB) (req : TransferRequest)
    (dId cId : String) (now : Nat) (f t : Account)
    (hne : req.from_account_id ≠ req.to_account_id)
    (hf : findAccount db req.from_account_id = some f)
    (hta : findAccount db req.to_account_id = some t)
    (hcur : f.currency = t.currency)
    (hneg : f.balance - req.amount < 0) :
    transfer db req dId cId now = .error .insufficientFunds := by
  simp only [transfer, hf, hta]
  rw [if_neg (by simp [hne])]
  rw [if_neg (by simp [hcur])]
  rw [if_pos hneg]

/-- Running `n` serialized withdrawals of a positive amount `A` against a
balance `B`: exactly `min n (B / A)` of them succeed and the final balance
is `B` minus the amount times the number of successes. -/
theorem withdrawN_spec (i : String) (A : Nat) (hA : 0 < A) :
    ∀ (n : Nat) (db : DB) (a : Account) (B : Nat),
      findAccount db i = some a → a.balance = (B : Int) →
      (withdrawN db i (A : Int) n).2 = min n (B / A) ∧
      ∃ a', findAccount (withdrawN db i (A : Int) n).1 i = some a' ∧
        a'.balance = (B : Int) - (min n (B / A) : Nat) * (A : Int) := by
  intro n
  induction n with
  | zero =>
    intro db a B ha hB
    refine ⟨by simp [withdrawN], a, ?_, ?_⟩
    · simpa [withdrawN] using ha
    · simp [hB]
  | succ n ih =>
    intro db a B ha hB
    by_cases hcase : B < A
    · have hdiv : B / A = 0 := Nat.div_eq_of_lt hcase
      have hneg : a.balance - (A : Int) < 0 := by
        rw [hB]
        omega
      have hstep : applyRecordTransaction db (withdrawalRequest i (A : Int))
          (toString n) n = (db, false) :=
        (recordTransaction_withdraw_fail db (withdrawalRequest i (A : Int))
          (toString n) n a ha rfl hneg).2
      obtain ⟨hcount, a', ha', hbal'⟩ := ih db a B ha hB
      constructor
      · show (withdrawN (applyRecordTransaction db (withdrawalRequest i (A : Int))
            (toString n) n).1 i (A : Int) n).2 +
          (if (applyRecordTransaction db (withdrawalRequest i (A : Int))
            (toString n) n).2 then 1 else 0) = min (n + 1) (B / A)
        rw [hstep]
        simp [hcount, hdiv]
      · refine ⟨a', ?_, ?_⟩
        · show findAccount (withdrawN (applyRecordTransaction db
              (withdrawalRequest i (A : Int)) (toString n) n).1 i (A : Int) n).1 i = _
          rw [hstep]
          exact ha'
        · rw [hbal']
          simp [hdiv]
    · have hle : A ≤ B := Nat.le_of_not_lt hcase
      have hpos : 0 ≤ a.balance - (A : Int) := by
        rw [hB]
        omega
      obtain ⟨db', tx, hok, htxv, hfind, hother, htx, hidm⟩ :=
        recordTransaction_withdraw_ok db (withdrawalRequest i (A : Int))
          (toString n) n a ha rfl hpos
      have hstep : applyRecordTransaction db (withdrawalRequest i (A : Int))
          (toString n) n = (db', true) := by
        unfold applyRecordTransaction
        rw [hok]
      have hbal'' : a.balance - (A : Int) = ((B - A : Nat) : Int) := by
        rw [hB]
        omega
      obtain ⟨hcount, a', ha', hbal'⟩ := ih db'
        { a with balance := a.balance - (A : Int), version := a.version + 1 }
        (B - A) hfind hbal''
      have hdivstep : B / A = (B - A) / A + 1 := Nat.div_eq_sub_div hA hle
      constructor
      · show (withdrawN (applyRecordTransaction db (withdrawalRequest i (A : Int))
            (toString n) n).1 i (A : Int) n).2 +
          (if (applyRecordTransaction db (withdrawalRequest i (A : Int))
            (toString n) n).2 then 1 else 0) = min (n + 1) (B / A)
        rw [hstep]
        simp only [hcount]
        rw [hdivstep]
        simp [Nat.succ_min_succ]
      · refine ⟨a', ?_, ?_⟩
        · show findAccount (withdrawN (applyRecordTransaction db
              (withdrawalRequest i (A : Int)) (toString n) n).1 i (A : Int) n).1 i = _
          rw [hstep]
          exact ha'
        · rw [hbal', hdivstep]
          have hmin : (n + 1) ⊓ ((B - A) / A + 1) = n ⊓ ((B - A) / A) + 1 := by
            omega
          have hsub : ((B - A : Nat) : Int) = (B : Int) - (A : Int) := by
            omega
          rw [hmin, hsub]
          push_cast
          ring

/-! ### Helper lemmas about the transaction history query -/

/-- `createdAtDescLe` is transitive. -/
theorem createdAtDescLe_trans (a b c : Txn)
    (hab : createdAtDescLe a b = true) (hbc : createdAtDescLe b c = true) :
    createdAtDescLe a c = true := by
  simp only [createdAtDescLe, decide_eq_true_eq] at *
  omega

/-- `createdAtDescLe` is total. -/
theorem createdAtDescLe_total (a b : Txn) :
    (createdAtDescLe a b || createdAtDescLe b a) = true := by
  simp only [createdAtDescLe, Bool.or_eq_true, decide_eq_true_eq]
  omega

/-- The history query with an in-range page and limit returns one page of
the account's rows: at most `limit` of them, ordered by creation time
descending, with the exact total row count and the ceiling page count. -/
theorem getTransactionHistory_ok (db : DB) (accountId : String) (p l : Int)
    (hp : 1 ≤ p) (hl0 : 0 < l) (hl : l ≤ 100) :
    ∃ r, getTransactionHistory db
        { account_id := accountId, page := some p, limit := some l } = .ok r ∧
      r.page = p ∧ r.limit = l ∧
      r.data.length ≤ l.toNat ∧
      List.Pairwise (fun x y : Txn => y.created_at ≤ x.created_at) r.data ∧
      (∀ tx ∈ r.data, tx.account_id = accountId) ∧
      r.total = (db.transactions.filter
        (fun tx => tx.account_id == accountId)).length ∧
      r.total_pages = jsMathCeilDiv r.total l.toNat := by
  have hpne : (p == 0) = false := by
    simp only [beq_eq_false_iff_ne, ne_eq]
    omega
  have hlne : (l == 0) = false := by
    simp only [beq_eq_false_iff_ne, ne_eq]
    omega
  have hoff : ¬(l < 0 ∨ (p - 1) * l < 0) := by
    push_neg
    constructor
    · omega
    · exact Int.mul_nonneg (by omega) (by omega)
  have hmain : getTransactionHistory db
      { account_id := accountId, page := some p, limit := some l } =
      .ok { data := (((db.transactions.filter
                (fun tx => tx.account_id == accountId)).mergeSort
                createdAtDescLe).drop ((p - 1) * l).toNat).take l.toNat
            page := p
            limit := l
            total := (db.transactions.filter
              (fun tx => tx.account_id == accountId)).length
            total_pages := jsMathCeilDiv (db.transactions.filter
              (fun tx => tx.account_id == accountId)).length l.toNat } := by
    simp only [getTransactionHistory, jsNumOr, hpne, hlne, Bool.false_eq_true,
      if_false, min_eq_left hl]
    rw [if_neg hoff]
  refine ⟨_, hmain, rfl, rfl, ?_, ?_, ?_, rfl, rfl⟩
  · exact List.length_take_le _ _
  · have hsorted : List.Pairwise (fun x y : Txn => createdAtDescLe x y = true)
        ((db.transactions.filter
          (fun tx => tx.account_id == accountId)).mergeSort createdAtDescLe) :=
      List.sorted_mergeSort createdAtDescLe_trans createdAtDescLe_total _
    have hsorted' : List.Pairwise (fun x y : Txn => y.created_at ≤ x.created_at)
        ((db.transactions.filter
          (fun tx => tx.account_id == accountId)).mergeSort createdAtDescLe) := by
      refine hsorted.imp ?_
      intro x y h
      simpa [createdAtDescLe] using h
    exact hsorted'.sublist
      ((List.take_sublist _ _).trans (List.drop_sublist _ _))
  · intro tx htx
    have h1 : tx ∈ (db.transactions.filter
        (fun t => t.account_id == accountId)).mergeSort createdAtDescLe :=
      ((List.take_sublist _ _).trans (List.drop_sublist _ _)).subset htx
    have h2 : tx ∈ db.transactions.filter (fun t => t.account_id == accountId) :=
      (List.mergeSort_perm _ createdAtDescLe).subset h1
    have h3 := List.mem_filter.mp h2
    simpa using h3.2

/-- C9: the history service itself never rejects an out-of-range limit: a
limit above 100 is silently clamped to 100, a missing or zero limit falls
back to the default 20, and a missing page falls back to 1 — the page and
limit fields of the (always successful) result witness the substitution. -/
theorem getTransactionHistory_defaults (db : DB) (accountId : String)
    (l : Int) (hl : 100 < l) :
    (getTransactionHistory db
        { account_id := accountId, page := none, limit := some l }).map
      (fun r => (r.limit, r.page)) = .ok (100, 1) ∧
    (getTransactionHistory db
        { account_id := accountId, page := none, limit := none }).map
      (fun r => (r.limit, r.page)) = .ok (20, 1) ∧
    (getTransactionHistory db
        { account_id := accountId, page := none, limit := some 0 }).map
      (fun r => (r.limit, r.page)) = .ok (20, 1) := by
  have hlne : (l == 0) = false := by
    simp only [beq_eq_false_iff_ne, ne_eq]
    omega
  refine ⟨?_, ?_, ?_⟩
  · simp only [getTransactionHistory, jsNumOr, hlne, Bool.false_eq_true,
      if_false, min_eq_right (by omega : (100 : Int) ≤ l)]
    rw [if_neg (by norm_num)]
    rfl
  · simp only [getTransactionHistory, jsNumOr]
    rw [if_neg (by norm_num)]
    rfl
  · simp only [getTransactionHistory, jsNumOr]
    rw [if_neg (by norm_num)]
    rfl

/-! ### Helper lemmas about the history endpoint and the idempotency store -/

/-- With a valid page and an in-range positive limit the endpoint passes the
parameters through to the service. -/
theorem historyEndpoint_ok (db : DB) (accountId : String) (p l : Int)
    (hp : 1 ≤ p) (hl0 : 0 < l) (hl : l ≤ 100) :
    ∃ r, historyEndpoint db accountId (some p) (some l) = .ok r ∧
      r.page = p ∧ r.limit = l ∧
      r.data.length ≤ l.toNat ∧
      List.Pairwise (fun x y : Txn => y.created_at ≤ x.created_at) r.data ∧
      (∀ tx ∈ r.data, tx.account_id = accountId) ∧
      r.total = (db.transactions.filter
        (fun tx => tx.account_id == accountId)).length ∧
      r.total_pages = jsMathCeilDiv r.total l.toNat := by
  obtain ⟨r, hr, hrest⟩ := getTransactionHistory_ok db accountId p l hp hl0 hl
  refine ⟨r, ?_, hrest⟩
  simp only [historyEndpoint, Option.getD]
  rw [if_neg (by omega)]
  rw [hr]

/-- A non-positive page or limit is rejected by the endpoint with the 400
error before the service runs. -/
theorem historyEndpoint_reject (db : DB) (accountId : String) (p l : Int)
    (h : p ≤ 0 ∨ l ≤ 0) :
    historyEndpoint db accountId (some p) (some l) =
      .error (.inl .badRequest) := by
  simp only [historyEndpoint, Option.getD]
  rw [if_pos (by omega)]

/-- Storing a fresh key hash appends exactly one record carrying the cached
response and the 24-hour expiry. -/
theorem storeIdempotencyRecord_fresh (db : DB) (h m p : String) (st : Int)
    (b : String) (now : Nat)
    (hfresh : db.idempotency_keys.all (fun r => r.key_hash ≠ h)) :
    (storeIdempotencyRecord db h m p st b now).idempotency_keys =
      db.idempotency_keys ++
        [{ key_hash := h, request_method := m, request_path := p,
           response_status := st, response_body := b, created_at := now,
           expires_at := now + idempotencyTtl }] := by
  have hany : db.idempotency_keys.any (fun r => r.key_hash == h) = false := by
    rw [List.any_eq_false]
    intro r hr
    have := List.all_eq_true.mp hfresh r hr
    simpa using this
  unfold storeIdempotencyRecord
  rw [hany]
  simp

/-- Storing a key hash that is already present changes nothing at all. -/
theorem storeIdempotencyRecord_dup (db : DB) (h m p : String) (st : Int)
    (b : String) (now : Nat)
    (hdup : db.idempotency_keys.any (fun r => r.key_hash == h) = true) :
    storeIdempotencyRecord db h m p st b now = db := by
  unfold storeIdempotencyRecord
  rw [hdup]
  simp

/-! ### Claim theorems -/

/-- C1: the claim states that `transfer` acquires its two exclusive account
locks in a canonical ascending-identifier order independent of which
account is source and which is destination. The source computes the sorted
pair (`transferSortedIds`, line 85) but never uses it: locks are taken
source-first (`transferLockOrder`, lines 87-101). For the request
b → a the actual lock order is `["b", "a"]`, not the canonical
`["a", "b"]`, and the two opposite transfer directions request their locks
in opposite relative orders — the deadlock the code's own comment says it
prevents. -/
theorem transfer_lock_order_not_canonical :
    transferLockOrder descOrderReq = ["b", "a"] ∧
    transferSortedIds descOrderReq = ["a", "b"] ∧
    transferLockOrder descOrderReq ≠ transferLockOrder ascOrderReq :=
  ⟨rfl, by decide, by decide⟩

/-- C2: every successful transfer conserves the sum of the two balances and
appends exactly two rows — a TRANSFER_DEBIT on the source and a
TRANSFER_CREDIT on the destination, each carrying the account's new
balance, whose related-transaction references point at each other. -/
theorem transfer_conservation_double_entry
    (db : DB) (req : TransferRequest) (dId cId : String) (now : Nat)
    (f t : Account) (db' : DB) (dTx cTx : Txn)
    (hne : req.from_account_id ≠ req.to_account_id)
    (hf : findAccount db req.from_account_id = some f)
    (hta : findAccount db req.to_account_id = some t)
    (hok : transfer db req dId cId now = .ok (db', dTx, cTx)) :
    (∃ f' t', findAccount db' req.from_account_id = some f' ∧
      findAccount db' req.to_account_id = some t' ∧
      f'.balance + t'.balance = f.balance + t.balance ∧
      dTx.balance_after = f'.balance ∧ cTx.balance_after = t'.balance) ∧
    db'.transactions = db.transactions ++ [dTx, cTx] ∧
    dTx.account_id = req.from_account_id ∧ dTx.type = .TRANSFER_DEBIT ∧
    cTx.account_id = req.to_account_id ∧ cTx.type = .TRANSFER_CREDIT ∧
    dTx.related_transaction_id = some cTx.id ∧
    cTx.related_transaction_id = some dTx.id := by
  by_cases hcur : f.currency = t.currency
  · by_cases hbal : 0 ≤ f.balance - req.amount
    · obtain ⟨db2, dTx2, cTx2, hok2, hd, hc, hf', ht', hother, htx, hidm⟩ :=
        transfer_ok_spec db req dId cId now f t hne hf hta hcur hbal
      rw [hok] at hok2
      simp only [Except.ok.injEq, Prod.mk.injEq] at hok2
      obtain ⟨hdb, hdt, hct⟩ := hok2
      subst hdb hdt hct
      refine ⟨⟨_, _, hf', ht', ?_, ?_, ?_⟩, htx, ?_, ?_, ?_, ?_, ?_, ?_⟩
      · show f.balance - req.amount + (t.balance + req.amount) =
          f.balance + t.balance
        ring
      · rw [hd]
      · rw [hc]
      · rw [hd]
      · rw [hd]
      · rw [hc]
      · rw [hc]
      · rw [hd, hc]
      · rw [hc, hd]
    · push_neg at hbal
      rw [transfer_insufficient db req dId cId now f t hne hf hta hcur
        (by omega)] at hok
      simp at hok
  · rw [transfer_currency_mismatch db req dId cId now f t hne hf hta hcur]
      at hok
    simp at hok

/-- Witness for C2: the sample transfer of 4 from balance 10 to balance 5
moves the pair to (6, 9), conserving the total of 15, and appends the two
linked rows. -/
theorem transfer_conservation_double_entry_witness :
    ("a" : String) ≠ "b" ∧
    transfer sampleDB sampleTransferReq "d1" "c1" 7 =
      .ok (sampleTransferDB, sampleDebitTx, sampleCreditTx) ∧
    ((∃ f' t', findAccount sampleTransferDB "a" = some f' ∧
      findAccount sampleTransferDB "b" = some t' ∧
      f'.balance + t'.balance = sampleAccountA.balance + sampleAccountB.balance ∧
      sampleDebitTx.balance_after = f'.balance ∧
      sampleCreditTx.balance_after = t'.balance) ∧
    sampleTransferDB.transactions =
      sampleDB.transactions ++ [sampleDebitTx, sampleCreditTx] ∧
    sampleDebitTx.account_id = "a" ∧ sampleDebitTx.type = .TRANSFER_DEBIT ∧
    sampleCreditTx.account_id = "b" ∧ sampleCreditTx.type = .TRANSFER_CREDIT ∧
    sampleDebitTx.related_transaction_id = some sampleCreditTx.id ∧
    sampleCreditTx.related_transaction_id = some sampleDebitTx.id) :=
  ⟨by decide, rfl,
    transfer_conservation_double_entry sampleDB sampleTransferReq "d1" "c1" 7
      sampleAccountA sampleAccountB sampleTransferDB sampleDebitTx
      sampleCreditTx (by decide) rfl rfl rfl⟩

/-- C3: `recordTransaction` (the spec's `recordSimple`) on an existing
account adds the amount on DEPOSIT and subtracts it on WITHDRAWAL; a
withdrawal that would go negative fails `InsufficientFunds` with no
persisted writes; on success exactly one row with `balance_after` equal to
the new balance is appended and the balance update is version-checked
(the stored version advances by exactly one). -/
theorem recordSimple_spec (db : DB) (req : RecordTransactionRequest)
    (txId : String) (now : Nat) (a : Account)
    (ha : findAccount db req.account_id = some a) (_hamt : 0 < req.amount) :
    (req.type = .DEPOSIT → ∃ db' tx,
      recordTransaction db req txId now = .ok (db', tx) ∧
      findAccount db' req.account_id =
        some { a with balance := a.balance + req.amount,
                      version := a.version + 1 } ∧
      db'.transactions = db.transactions ++ [tx] ∧
      tx.balance_after = a.balance + req.amount ∧ tx.type = .DEPOSIT) ∧
    (req.type = .WITHDRAWAL → a.balance - req.amount < 0 →
      recordTransaction db req txId now = .error .insufficientFunds ∧
      applyRecordTransaction db req txId now = (db, false)) ∧
    (req.type = .WITHDRAWAL → 0 ≤ a.balance - req.amount → ∃ db' tx,
      recordTransaction db req txId now = .ok (db', tx) ∧
      findAccount db' req.account_id =
        some { a with balance := a.balance - req.amount,
                      version := a.version + 1 } ∧
      db'.transactions = db.transactions ++ [tx] ∧
      tx.balance_after = a.balance - req.amount ∧ tx.type = .WITHDRAWAL) := by
  refine ⟨?_, ?_, ?_⟩
  · intro ht
    obtain ⟨db', tx, hok, htxv, hfind, hother, htx, hidm⟩ :=
      recordTransaction_deposit db req txId now a ha ht
    exact ⟨db', tx, hok, hfind, htx, by rw [htxv], by rw [htxv]⟩
  · intro ht hneg
    exact recordTransaction_withdraw_fail db req txId now a ha ht hneg
  · intro ht hpos
    obtain ⟨db', tx, hok, htxv, hfind, hother, htx, hidm⟩ :=
      recordTransaction_withdraw_ok db req txId now a ha ht hpos
    exact ⟨db', tx, hok, hfind, htx, by rw [htxv], by rw [htxv]⟩

/-- Witness for C3: a deposit of 7 into the sample account with balance 10. -/
theorem recordSimple_spec_witness :
    (0 : Int) < 7 ∧
    ((SimpleTxnType.DEPOSIT = .DEPOSIT → ∃ db' tx,
      recordTransaction sampleDB sampleDepositReq "t1" 3 = .ok (db', tx) ∧
      findAccount db' "a" =
        some { sampleAccountA with balance := sampleAccountA.balance + 7,
                                   version := sampleAccountA.version + 1 } ∧
      db'.transactions = sampleDB.transactions ++ [tx] ∧
      tx.balance_after = sampleAccountA.balance + 7 ∧ tx.type = .DEPOSIT) ∧
    (SimpleTxnType.DEPOSIT = .WITHDRAWAL → sampleAccountA.balance - 7 < 0 →
      recordTransaction sampleDB sampleDepositReq "t1" 3 =
        .error .insufficientFunds ∧
      applyRecordTransaction sampleDB sampleDepositReq "t1" 3 =
        (sampleDB, false)) ∧
    (SimpleTxnType.DEPOSIT = .WITHDRAWAL → 0 ≤ sampleAccountA.balance - 7 →
      ∃ db' tx,
      recordTransaction sampleDB sampleDepositReq "t1" 3 = .ok (db', tx) ∧
      findAccount db' "a" =
        some { sampleAccountA with balance := sampleAccountA.balance - 7,
                                   version := sampleAccountA.version + 1 } ∧
      db'.transactions = sampleDB.transactions ++ [tx] ∧
      tx.balance_after = sampleAccountA.balance - 7 ∧
      tx.type = .WITHDRAWAL)) :=
  ⟨by decide,
    recordSimple_spec sampleDB sampleDepositReq "t1" 3 sampleAccountA rfl
      (by decide)⟩

/-- C4: any failing ledger operation rolls back the whole unit of work — the
caller's state after a rolled-back `transfer` or `recordTransaction` is the
pre-call state; in particular a transfer between accounts of different
currencies fails with `CurrencyMismatch` and leaves both balances and the
transaction log exactly as they were. -/
theorem ledger_error_rollback (db : DB) (req : TransferRequest)
    (dId cId : String) (now : Nat) (f t : Account)
    (hne : req.from_account_id ≠ req.to_account_id)
    (hf : findAccount db req.from_account_id = some f)
    (hta : findAccount db req.to_account_id = some t)
    (hcur : f.currency ≠ t.currency) :
    transfer db req dId cId now = .error .currencyMismatch ∧
    applyTransfer db req dId cId now = db ∧
    (∀ (db₂ : DB) (req₂ : TransferRequest) (d c : String) (m : Nat)
      (e : LedgerError), transfer db₂ req₂ d c m = .error e →
        applyTransfer db₂ req₂ d c m = db₂) ∧
    (∀ (db₂ : DB) (r : RecordTransactionRequest) (x : String) (m : Nat)
      (e : LedgerError), recordTransaction db₂ r x m = .error e →
        applyRecordTransaction db₂ r x m = (db₂, false)) := by
  have h1 := transfer_currency_mismatch db req dId cId now f t hne hf hta hcur
  exact ⟨h1, applyTransfer_error _ _ _ _ _ _ h1,
    fun db₂ req₂ d c m e he => applyTransfer_error _ _ _ _ _ _ he,
    fun db₂ r x m e he => applyRecordTransaction_error _ _ _ _ _ he⟩

/-- Witness for C4: transferring from the USD account to the INR account
fails with `CurrencyMismatch` and the observable state is unchanged. -/
theorem ledger_error_rollback_witness :
    ("a" : String) ≠ "c" ∧
    findAccount sampleMismatchDB "a" = some sampleAccountA ∧
    findAccount sampleMismatchDB "c" = some sampleAccountC ∧
    sampleAccountA.currency ≠ sampleAccountC.currency ∧
    (transfer sampleMismatchDB sampleMismatchReq "d1" "c1" 0 =
      .error .currencyMismatch ∧
    applyTransfer sampleMismatchDB sampleMismatchReq "d1" "c1" 0 =
      sampleMismatchDB ∧
    (∀ (db₂ : DB) (req₂ : TransferRequest) (d c : String) (m : Nat)
      (e : LedgerError), transfer db₂ req₂ d c m = .error e →
        applyTransfer db₂ req₂ d c m = db₂) ∧
    (∀ (db₂ : DB) (r : RecordTransactionRequest) (x : String) (m : Nat)
      (e : LedgerError), recordTransaction db₂ r x m = .error e →
        applyRecordTransaction db₂ r x m = (db₂, false))) :=
  ⟨by decide, rfl, rfl, by decide,
    ledger_error_rollback sampleMismatchDB sampleMismatchReq "d1" "c1" 0
      sampleAccountA sampleAccountC (by decide) rfl rfl (by decide)⟩

/-- C5: `updateAccountBalance` with the account's current version sets the
balance and advances the version by exactly one, leaving every other row
and the transaction log untouched; with any other expected version it
fails `VersionConflict` (and the enclosing unit of work keeps the row
unchanged). -/
theorem updateBalance_version_check (db : DB) (i : String) (nb : Int)
    (v : Nat) (a : Account) (hn : accountIdsNodup db)
    (ha : findAccount db i = some a) :
    (a.version = v → ∃ db', updateAccountBalance db i nb v = .ok db' ∧
      findAccount db' i =
        some { a with balance := nb, version := a.version + 1 } ∧
      (∀ j, j ≠ i → findAccount db' j = findAccount db j) ∧
      db'.transactions = db.transactions) ∧
    (a.version ≠ v → updateAccountBalance db i nb v = .error .versionConflict) := by
  constructor
  · intro hv
    subst hv
    obtain ⟨db', h1, h2, h3, h4, h5⟩ := updateAccountBalance_found db i nb a ha
    exact ⟨db', h1, h2, h3, h4⟩
  · intro hv
    exact updateAccountBalance_mismatch db i nb v a hn ha hv

/-- Witness for C5: a version-checked update of the sample account at its
stored version 0. -/
theorem updateBalance_version_check_witness :
    (sampleAccountA.version = 0 → ∃ db',
      updateAccountBalance sampleDB "a" 42 0 = .ok db' ∧
      findAccount db' "a" =
        some { sampleAccountA with balance := 42,
                                   version := sampleAccountA.version + 1 } ∧
      (∀ j, j ≠ "a" → findAccount db' j = findAccount sampleDB j) ∧
      db'.transactions = sampleDB.transactions) ∧
    (sampleAccountA.version ≠ 0 →
      updateAccountBalance sampleDB "a" 42 0 = .error .versionConflict) :=
  updateBalance_version_check sampleDB "a" 42 0 sampleAccountA
    (by unfold accountIdsNodup; decide) rfl

/-- C6: with a page of at least 1 and a limit in (0, 100], the history
endpoint succeeds with at most `limit` of the account's rows ordered by
creation time descending, an exact total row count, and a total-page count
of `ceil(total / limit)`; a non-positive page or limit is rejected with
the 400 error. -/
theorem getHistory_spec (db : DB) (accountId : String) (p l : Int)
    (hp : 1 ≤ p) (hl0 : 0 < l) (hl : l ≤ 100) :
    (∃ r, historyEndpoint db accountId (some p) (some l) = .ok r ∧
      r.data.length ≤ l.toNat ∧
      List.Pairwise (fun x y : Txn => y.created_at ≤ x.created_at) r.data ∧
      (∀ tx ∈ r.data, tx.account_id = accountId) ∧
      r.total = (db.transactions.filter
        (fun tx => tx.account_id == accountId)).length ∧
      r.total_pages = jsMathCeilDiv r.total l.toNat) ∧
    (∀ p2 l2 : Int, p2 ≤ 0 ∨ l2 ≤ 0 →
      historyEndpoint db accountId (some p2) (some l2) =
        .error (.inl .badRequest)) := by
  obtain ⟨r, hr, hpage, hlim, h1, h2, h3, h4, h5⟩ :=
    historyEndpoint_ok db accountId p l hp hl0 hl
  exact ⟨⟨r, hr, h1, h2, h3, h4, h5⟩,
    fun p2 l2 h => historyEndpoint_reject db accountId p2 l2 h⟩

/-- Witness for C6: page 1 with limit 10 against the post-transfer sample
database, whose log holds one row for account "a" and one for "b". -/
theorem getHistory_spec_witness :
    (1 : Int) ≤ 1 ∧ (0 : Int) < 10 ∧ (10 : Int) ≤ 100 ∧
    ((∃ r, historyEndpoint sampleTransferDB "a" (some 1) (some 10) = .ok r ∧
      r.data.length ≤ (10 : Int).toNat ∧
      List.Pairwise (fun x y : Txn => y.created_at ≤ x.created_at) r.data ∧
      (∀ tx ∈ r.data, tx.account_id = "a") ∧
      r.total = (sampleTransferDB.transactions.filter
        (fun tx => tx.account_id == "a")).length ∧
      r.total_pages = jsMathCeilDiv r.total (10 : Int).toNat) ∧
    (∀ p2 l2 : Int, p2 ≤ 0 ∨ l2 ≤ 0 →
      historyEndpoint sampleTransferDB "a" (some p2) (some l2) =
        .error (.inl .badRequest))) :=
  ⟨by decide, by decide, by decide,
    getHistory_spec sampleTransferDB "a" 1 10 (by decide) (by decide)
      (by decide)⟩

/-- Witness for C9: a requested limit of 250 is clamped to 100 without an
error, a missing or zero limit becomes 20, and a missing page becomes 1. -/
theorem getTransactionHistory_defaults_witness :
    (100 : Int) < 250 ∧
    ((getTransactionHistory sampleDB
        { account_id := "a", page := none, limit := some 250 }).map
      (fun r => (r.limit, r.page)) = .ok (100, 1) ∧
    (getTransactionHistory sampleDB
        { account_id := "a", page := none, limit := none }).map
      (fun r => (r.limit, r.page)) = .ok (20, 1) ∧
    (getTransactionHistory sampleDB
        { account_id := "a", page := none, limit := some 0 }).map
      (fun r => (r.limit, r.page)) = .ok (20, 1)) :=
  ⟨by decide, getTransactionHistory_defaults sampleDB "a" 250 (by decide)⟩

/-- C7: `storeIdempotencyRecord` inserts only when no record with the key
hash exists: the first store appends exactly one record, any store against
a state already holding the hash changes nothing, and in particular a
second store right after the first is a no-op — first-writer-wins. -/
theorem idempotency_first_writer_wins (db : DB)
    (kh m1 p1 m2 p2 : String) (st1 st2 : Int) (b1 b2 : String)
    (n1 n2 : Nat)
    (hfresh : db.idempotency_keys.all (fun r => r.key_hash ≠ kh)) :
    (storeIdempotencyRecord db kh m1 p1 st1 b1 n1).idempotency_keys =
      db.idempotency_keys ++
        [{ key_hash := kh, request_method := m1, request_path := p1,
           response_status := st1, response_body := b1, created_at := n1,
           expires_at := n1 + idempotencyTtl }] ∧
    (∀ db₂ : DB,
      db₂.idempotency_keys.any (fun r => r.key_hash == kh) = true →
      storeIdempotencyRecord db₂ kh m2 p2 st2 b2 n2 = db₂) ∧
    storeIdempotencyRecord (storeIdempotencyRecord db kh m1 p1 st1 b1 n1)
      kh m2 p2 st2 b2 n2 = storeIdempotencyRecord db kh m1 p1 st1 b1 n1 := by
  have h1 := storeIdempotencyRecord_fresh db kh m1 p1 st1 b1 n1 hfresh
  refine ⟨h1, fun db₂ hd =>
    storeIdempotencyRecord_dup db₂ kh m2 p2 st2 b2 n2 hd, ?_⟩
  apply storeIdempotencyRecord_dup
  rw [h1, List.any_append]
  simp

/-- Witness for C7: storing hash "k1" into the empty idempotency table,
then trying to overwrite it with a different cached response. -/
theorem idempotency_first_writer_wins_witness :
    sampleDB.idempotency_keys.all (fun r => r.key_hash ≠ "k1") = true ∧
    ((storeIdempotencyRecord sampleDB "k1" "POST" "/api/transactions" 201
        "resp1" 0).idempotency_keys =
      sampleDB.idempotency_keys ++
        [{ key_hash := "k1", request_method := "POST",
           request_path := "/api/transactions", response_status := 201,
           response_body := "resp1", created_at := 0,
           expires_at := 0 + idempotencyTtl }] ∧
    (∀ db₂ : DB,
      db₂.idempotency_keys.any (fun r => r.key_hash == "k1") = true →
      storeIdempotencyRecord db₂ "k1" "PUT" "/other" 400 "resp2" 5 = db₂) ∧
    storeIdempotencyRecord (storeIdempotencyRecord sampleDB "k1" "POST"
        "/api/transactions" 201 "resp1" 0) "k1" "PUT" "/other" 400 "resp2"
      5 = storeIdempotencyRecord sampleDB "k1" "POST" "/api/transactions"
        201 "resp1" 0) :=
  ⟨by decide,
    idempotency_first_writer_wins sampleDB "k1" "POST" "/api/transactions"
      "PUT" "/other" 201 400 "resp1" "resp2" 0 5 (by decide)⟩

/-- C8: `N` serialized withdrawals (the serialization the account row lock
imposes on concurrent withdrawals) of amount `A > 0` from balance `B`
succeed exactly `min N (B / A)` times, leave the balance at
`B − successes·A`, and the balance is non-negative after every prefix of
the run. -/
theorem concurrent_withdrawals_spec (db : DB) (i : String)
    (A B N k : Nat) (a : Account) (hA : 0 < A)
    (ha : findAccount db i = some a) (hB : a.balance = (B : Int))
    (_hk : k ≤ N) :
    (withdrawN db i (A : Int) N).2 = min N (B / A) ∧
    (∃ a', findAccount (withdrawN db i (A : Int) N).1 i = some a' ∧
      a'.balance = (B : Int) - ((min N (B / A) : Nat) : Int) * (A : Int)) ∧
    (∃ a', findAccount (withdrawN db i (A : Int) k).1 i = some a' ∧
      0 ≤ a'.balance) := by
  obtain ⟨hc, a', ha', hb'⟩ := withdrawN_spec i A hA N db a B ha hB
  obtain ⟨hck, ak, hak, hbk⟩ := withdrawN_spec i A hA k db a B ha hB
  refine ⟨hc, ⟨a', ha', hb'⟩, ⟨ak, hak, ?_⟩⟩
  rw [hbk]
  have hmul : (min k (B / A)) * A ≤ B :=
    le_trans (Nat.mul_le_mul_right A (min_le_right _ _))
      (Nat.div_mul_le_self B A)
  have h2 : ((min k (B / A) * A : Nat) : Int) ≤ ((B : Nat) : Int) :=
    Int.ofNat_le.mpr hmul
  rw [Nat.cast_mul] at h2
  linarith

/-- Witness for C8: 4 withdrawals of 3 from balance 10 — exactly 3 succeed,
the final balance is 1, and after 2 withdrawals the balance is still
non-negative. -/
theorem concurrent_withdrawals_spec_witness :
    0 < 3 ∧ findAccount sampleDB "a" = some sampleAccountA ∧
    sampleAccountA.balance = ((10 : Nat) : Int) ∧ 2 ≤ 4 ∧
    ((withdrawN sampleDB "a" ((3 : Nat) : Int) 4).2 = min 4 (10 / 3) ∧
    (∃ a', findAccount (withdrawN sampleDB "a" ((3 : Nat) : Int) 4).1 "a" =
        some a' ∧
      a'.balance = ((10 : Nat) : Int) -
        ((min 4 (10 / 3) : Nat) : Int) * ((3 : Nat) : Int)) ∧
    (∃ a', findAccount (withdrawN sampleDB "a" ((3 : Nat) : Int) 2).1 "a" =
        some a' ∧
      0 ≤ a'.balance)) :=
  ⟨by decide, rfl, by decide, by decide,
    concurrent_withdrawals_spec sampleDB "a" 3 10 4 2 sampleAccountA
      (by decide) rfl (by decide) (by decide)⟩

/-- C10: `generateIdempotencyKeyHash` is a deterministic pure function of
the triple (method, path, key): for any digest function, equal triples
produce the identical hash, and no other request content enters the
computation. -/
theorem idempotency_hash_deterministic (digest : String → String)
    (m1 p1 k1 m2 p2 k2 : String)
    (hm : m1 = m2) (hp : p1 = p2) (hk : k1 = k2) :
    generateIdempotencyKeyHash digest m1 p1 k1 =
      generateIdempotencyKeyHash digest m2 p2 k2 := by
  rw [hm, hp, hk]

/-- Witness for C10: two textually separate but equal triples hash
identically under the identity digest. -/
theorem idempotency_hash_deterministic_witness :
    ("POST" : String) = "POST" ∧ ("/api/transactions" : String) =
      "/api/transactions" ∧ ("key-1" : String) = "key-1" ∧
    generateIdempotencyKeyHash (fun s => s) "POST" "/api/transactions"
        "key-1" =
      generateIdempotencyKeyHash (fun s => s) "POST" "/api/transactions"
        "key-1" :=
  ⟨rfl, rfl, rfl,
    idempotency_hash_deterministic (fun s => s) "POST" "/api/transactions"
      "key-1" "POST" "/api/transactions" "key-1" rfl rfl rfl⟩
